import Mathlib

/-
A shallow embedding of the Excel formatter CLI in src/frmtxlsx.py.

Tables (pandas DataFrames) are modelled as a row count together with the
index-level columns and the ordinary columns; every cell carries the string
representation that the script ultimately measures.  The xlsxwriter worksheet
is modelled by the set of column widths that have been set, the set of
conditional-format rules added, and the frozen-pane position; xlsxwriter
format objects are modelled by their contents.  Raised exceptions are
modelled with Except String.
-/

/-- One named column: its header label and the string representations of its
cells (str(value) as measured by the script). -/
structure Column where
  name : String
  cells : List String
deriving DecidableEq

/-- A pandas DataFrame: row count, index-level columns (a pandas index always
has at least one level) and ordinary columns. -/
structure DataFrame where
  nrows : Nat
  indexCols : List Column
  cols : List Column
deriving DecidableEq

/-- The dynamic value held in MyFormatter.data: a DataFrame, or a value of
some other unsupported runtime type, remembered by its type name.  (The
DataFrameGroupBy branch of _validate_data is outside the scope of this
development.) -/
inductive PyData where
  | frame (df : DataFrame)
  | other (typeName : String)
deriving DecidableEq

/-- MyFormatter's mutable state: self.data and self._validated. -/
structure FormatterState where
  data : PyData
  validated : Bool
deriving DecidableEq

/-- The fresh single-level RangeIndex that pandas installs after
reset_index; its labels are the row numbers. -/
def rangeIndexColumn (n : Nat) : Column :=
  { name := "", cells := (List.range n).map toString }

/-- The success path of df.reset_index(): every index level becomes an
ordinary column, inserted in front of the existing columns, and the index
becomes a fresh single-level RangeIndex.  The row count is unchanged.
Whether reset_index takes this path or raises is decided by resetIndexOk
below, checked where _validate_data calls it. -/
def DataFrame.resetIndexFlatten (df : DataFrame) : DataFrame :=
  { nrows := df.nrows
  , indexCols := [rangeIndexColumn df.nrows]
  , cols := df.indexCols ++ df.cols }

/-- Whether df.reset_index() can insert every index level.  pandas inserts
the levels one by one (last level first) and raises
ValueError "cannot insert ..., already exists" when the name of the level
being inserted already names an existing column or an already-inserted
later level; so reset_index succeeds exactly when the level names are
pairwise distinct and none of them collides with an existing column name.
A Column's name field holds the resolved name pandas uses (an unnamed
level of a multi-level index resolves to level_0, level_1, ...). -/
def DataFrame.resetIndexOk (df : DataFrame) : Prop :=
  (df.indexCols.map Column.name).Nodup ∧
    ∀ n ∈ df.indexCols.map Column.name, n ∉ df.cols.map Column.name

instance (df : DataFrame) : Decidable df.resetIndexOk := by
  unfold DataFrame.resetIndexOk
  exact inferInstance

/-- pandas df.empty: true when either axis has length zero. -/
def DataFrame.isEmptyDf (df : DataFrame) : Bool :=
  df.nrows == 0 || df.cols.length == 0

/-- The result of the index-flattening step of _validate_data (frmtxlsx.py
lines 81-83) when reset_index does not raise: reset a multi-level index,
leave a single-level index alone. -/
def normalizeFrame (df : DataFrame) : DataFrame :=
  if 1 < df.indexCols.length then df.resetIndexFlatten else df

/-- MyFormatter._validate_data (lines 68-102).  Returns the updated formatter
state and either success or the raised ExcelFormatterError.  When
reset_index raises ValueError on a level-name clash, the exception is
caught and wrapped and self.data is left unflattened; otherwise the stored
data is updated even when the empty check then fails, because self.data is
assigned before that check runs. -/
def validateData (fs : FormatterState) : FormatterState × Except String Unit :=
  if fs.validated then (fs, Except.ok ())
  else
    match fs.data with
    | PyData.frame df =>
        if 1 < df.indexCols.length ∧ ¬ df.resetIndexOk then
          (fs,
            Except.error "Data validation failed: cannot insert index level, already exists")
        else
          let df2 := normalizeFrame df
          if df2.isEmptyDf then
            ({ data := PyData.frame df2, validated := false },
              Except.error "Data validation failed: Cannot format empty DataFrame")
          else
            ({ data := PyData.frame df2, validated := true }, Except.ok ())
    | PyData.other t =>
        (fs, Except.error ("Data validation failed: Unsupported data type: " ++ t))

/-- col_data.str.len().max() over the string cells of a column; 0 when the
column has no cells, as in the script's `if not col_data.empty else 0`
guard (line 119). -/
def maxStrLen (cells : List String) : Nat :=
  cells.foldl (fun a s => max a s.length) 0

/-- max(maximum cell text length, header text length) for one column
(lines 117-121). -/
def colMaxTextLen (c : Column) : Nat :=
  max (maxStrLen c.cells) c.name.length

/-- width = min(max(m + 2, 8), 50) (line 123). -/
def widthOfLen (m : Nat) : Nat :=
  min (max (m + 2) 8) 50

/-- The display width apply_spacing computes for one column. -/
def columnWidth (c : Column) : Nat :=
  widthOfLen (colMaxTextLen c)

/-- An xlsxwriter format object, modelled by its contents. -/
structure CellFormat where
  bgColor : Option String := none
  bold : Bool := false
  border : Option Nat := none
  borderColor : Option String := none
deriving DecidableEq

/-- One worksheet.conditional_format call: the rectangular range
(first row, first column, last row, last column) and the format applied. -/
structure CondFmt where
  firstRow : Nat
  firstCol : Nat
  lastRow : Nat
  lastCol : Nat
  fmt : CellFormat
deriving DecidableEq

/-- The worksheet surface the script mutates: per-column display widths, the
conditional-format rules added so far, and the frozen-pane position. -/
@[ext] structure Worksheet where
  widths : Finset (Nat × Nat)
  condFormats : Finset CondFmt
  frozen : Option (Nat × Nat)
deriving DecidableEq

/-- worksheet.set_column(i, i, w): any previous width for column i is
replaced. -/
def Worksheet.setColumn (ws : Worksheet) (i w : Nat) : Worksheet :=
  { ws with widths := insert (i, w) (ws.widths.filter (fun p => p.1 ≠ i)) }

/-- worksheet.conditional_format(...): record the range/format rule. -/
def Worksheet.condFormat (ws : Worksheet) (cf : CondFmt) : Worksheet :=
  { ws with condFormats := insert cf ws.condFormats }

/-- Whether a conditional-format range covers the cell at (r, c). -/
def CondFmt.covers (cf : CondFmt) (r c : Nat) : Prop :=
  cf.firstRow ≤ r ∧ r ≤ cf.lastRow ∧ cf.firstCol ≤ c ∧ c ≤ cf.lastCol

instance (cf : CondFmt) (r c : Nat) : Decidable (cf.covers r c) := by
  unfold CondFmt.covers
  exact inferInstance

/-- workbook.add_format with border style and color (lines 194-197). -/
def borderFormat (style : Nat) (color : String) : CellFormat :=
  { border := some style, borderColor := some color }

/-- workbook.add_format for the bold grey bottom row (lines 152-155). -/
def greyBottomFormat : CellFormat :=
  { bgColor := some "#d9d9d9", bold := true }

/-- workbook.add_format for the header background (line 163). -/
def headerFormat (c : String) : CellFormat :=
  { bgColor := some c }

/-- The for-loop of apply_spacing (lines 115-124): for each column, in
order, set that column's width to columnWidth.  pandas looks each column up
by its label; in the tables this program builds labels are unique
(read_excel deduplicates headers and reset_index refuses name clashes), so
label lookup coincides with the positional enumeration embedded here. -/
def applyWidths (cols : List Column) (i : Nat) (ws : Worksheet) : Worksheet :=
  match cols with
  | [] => ws
  | c :: rest => applyWidths rest (i + 1) (ws.setColumn i (columnWidth c))

/-- MyFormatter.apply_spacing (lines 104-130): validate, then set every
column's width; any exception is wrapped in an ExcelFormatterError. -/
def applySpacing (fs : FormatterState) (ws : Worksheet) :
    FormatterState × Worksheet × Except String Unit :=
  match validateData fs with
  | (fs2, Except.error e) =>
      (fs2, ws, Except.error ("Spacing operation failed: " ++ e))
  | (fs2, Except.ok _) =>
      match fs2.data with
      | PyData.frame df => (fs2, applyWidths df.cols 0 ws, Except.ok ())
      | PyData.other t =>
          (fs2, ws, Except.error ("Spacing operation failed: unsupported type " ++ t))

/-- MyFormatter.apply_column_colors (lines 132-173): validate; if
grey_bottom and the table has rows, format the row at index len(data) (the
last data row under the header) across all columns with the bold grey
format; then format header row 0 across all columns with the header color. -/
def applyColumnColors (greyBottom : Bool) (headerColor : String)
    (fs : FormatterState) (ws : Worksheet) :
    FormatterState × Worksheet × Except String Unit :=
  match validateData fs with
  | (fs2, Except.error e) =>
      (fs2, ws, Except.error ("Color operation failed: " ++ e))
  | (fs2, Except.ok _) =>
      match fs2.data with
      | PyData.frame df =>
          let ws1 :=
            if greyBottom ∧ 0 < df.nrows then
              ws.condFormat
                { firstRow := df.nrows, firstCol := 0, lastRow := df.nrows
                , lastCol := df.cols.length - 1, fmt := greyBottomFormat }
            else ws
          let ws2 :=
            if 0 < df.cols.length then
              ws1.condFormat
                { firstRow := 0, firstCol := 0, lastRow := 0
                , lastCol := df.cols.length - 1, fmt := headerFormat headerColor }
            else ws1
          (fs2, ws2, Except.ok ())
      | PyData.other t =>
          (fs2, ws, Except.error ("Color operation failed: unsupported type " ++ t))

/-- MyFormatter.apply_borders (lines 175-210): validate; return early when
there are no data rows; otherwise format rows 1..len(data), columns
0..len(columns)-1 with the border format. -/
def applyBorders (style : Nat) (color : String)
    (fs : FormatterState) (ws : Worksheet) :
    FormatterState × Worksheet × Except String Unit :=
  match validateData fs with
  | (fs2, Except.error e) =>
      (fs2, ws, Except.error ("Border operation failed: " ++ e))
  | (fs2, Except.ok _) =>
      match fs2.data with
      | PyData.frame df =>
          if df.nrows = 0 then (fs2, ws, Except.ok ())
          else
            (fs2,
              ws.condFormat
                { firstRow := 1, firstCol := 0, lastRow := df.nrows
                , lastCol := df.cols.length - 1, fmt := borderFormat style color },
              Except.ok ())
      | PyData.other t =>
          (fs2, ws, Except.error ("Border operation failed: unsupported type " ++ t))

/-- MyFormatter.freeze_panes (lines 212-227): no validation, just
worksheet.freeze_panes(row, col). -/
def freezePanes (row col : Nat) (fs : FormatterState) (ws : Worksheet) :
    FormatterState × Worksheet × Except String Unit :=
  (fs, { ws with frozen := some (row, col) }, Except.ok ())

/-- Whether an operation raised. -/
def isErr : Except String Unit → Bool
  | Except.error _ => true
  | Except.ok _ => false

/-- The state transformation of apply_spacing (result value dropped). -/
def spacingStep (p : FormatterState × Worksheet) : FormatterState × Worksheet :=
  ((applySpacing p.1 p.2).1, (applySpacing p.1 p.2).2.1)

/-- The state transformation of apply_column_colors. -/
def colorsStep (gb : Bool) (hc : String) (p : FormatterState × Worksheet) :
    FormatterState × Worksheet :=
  ((applyColumnColors gb hc p.1 p.2).1, (applyColumnColors gb hc p.1 p.2).2.1)

/-- The state transformation of apply_borders. -/
def bordersStep (st : Nat) (bc : String) (p : FormatterState × Worksheet) :
    FormatterState × Worksheet :=
  ((applyBorders st bc p.1 p.2).1, (applyBorders st bc p.1 p.2).2.1)

/-- The state transformation of freeze_panes. -/
def freezeStep (r c : Nat) (p : FormatterState × Worksheet) :
    FormatterState × Worksheet :=
  ((freezePanes r c p.1 p.2).1, (freezePanes r c p.1 p.2).2.1)

/-- The state MyFormatter is in right after a successful _validate_data call
on a DataFrame: the stored data is that frame, the flag is set, and the
empty check has passed, so the frame has at least one row and one column. -/
def ValidatedFrame (fs : FormatterState) (df : DataFrame) : Prop :=
  fs.data = PyData.frame df ∧ fs.validated = true ∧
    0 < df.nrows ∧ 0 < df.cols.length

/-- How control leaves the try block of main (lines 392-426). -/
inductive RunOutcome where
  | success
  | invalidFileType (msg : String)
  | fileNotFound (msg : String)
  | excelFormatterError (msg : String)
  | keyboardInterrupt
  | unexpected (msg : String)

/-- The process exit status main produces for each outcome under the given
verbose flag (lines 428-438).  With verbose set, an unexpected error is
re-raised; the interpreter then terminates with status 1, the same status
sys.exit(1) yields on the non-verbose path. -/
def mainExitCode : RunOutcome → Bool → Nat
  | RunOutcome.success, _ => 0
  | RunOutcome.invalidFileType _, _ => 1
  | RunOutcome.fileNotFound _, _ => 1
  | RunOutcome.excelFormatterError _, _ => 1
  | RunOutcome.keyboardInterrupt, _ => 130
  | RunOutcome.unexpected _, _ => 1

/-- The command-line flags that shape the formatting run. -/
structure CliArgs where
  sheet : Option String
  borders : Bool
  freezePanes : Bool
  colorColumns : Bool
  spacing : Bool
  greyBottom : Bool
  all : Bool

/-- One requested formatting operation. -/
inductive FmtOp where
  | spacingOp
  | bordersOp
  | colorColumnsOp (greyBottom : Bool)
  | freezePanesOp
deriving DecidableEq

/-- The data-flow plan of main lines 398-423: which input sheet is read,
which sheet name the output workbook is written under, and which operations
run in which order. -/
structure MainPlan where
  readSheet : Option String
  writeSheet : String
  ops : List FmtOp

/-- main lines 398-423: load_excel_data(input_path, args.sheet), then
df.to_excel(writer, sheet_name="Sheet1"), then the flag-gated operations. -/
def mainPlan (a : CliArgs) : MainPlan :=
  { readSheet := a.sheet
  , writeSheet := "Sheet1"
  , ops :=
      if a.all then
        [FmtOp.spacingOp, FmtOp.bordersOp, FmtOp.colorColumnsOp a.greyBottom,
          FmtOp.freezePanesOp]
      else
        (if a.spacing then [FmtOp.spacingOp] else []) ++
        (if a.borders then [FmtOp.bordersOp] else []) ++
        (if a.colorColumns then [FmtOp.colorColumnsOp a.greyBottom] else []) ++
        (if a.freezePanes then [FmtOp.freezePanesOp] else []) }

/-- A one-row, one-column sample table. -/
def sampleDf : DataFrame :=
  { nrows := 1
  , indexCols := [{ name := "", cells := ["0"] }]
  , cols := [{ name := "Name", cells := ["Alice"] }] }

/-- A formatter state holding sampleDf, already validated. -/
def sampleValidatedFs : FormatterState :=
  { data := PyData.frame sampleDf, validated := true }

/-- A fresh formatter state holding sampleDf. -/
def sampleFreshFs : FormatterState :=
  { data := PyData.frame sampleDf, validated := false }

/-- A table with a two-level row index, 2 rows and 1 ordinary column. -/
def sampleMultiDf : DataFrame :=
  { nrows := 2
  , indexCols :=
      [{ name := "year", cells := ["2020", "2021"] }
      , { name := "city", cells := ["a", "b"] }]
  , cols := [{ name := "Score", cells := ["10", "200"] }] }

/-- A table with a two-level row index whose second level name duplicates
an ordinary column name, so reset_index raises. -/
def clashDf : DataFrame :=
  { nrows := 1
  , indexCols :=
      [{ name := "year", cells := ["2020"] }
      , { name := "Score", cells := ["a"] }]
  , cols := [{ name := "Score", cells := ["10"] }] }

/-- A zero-row table: one header, no data rows. -/
def zeroRowDf : DataFrame :=
  { nrows := 0
  , indexCols := [{ name := "", cells := [] }]
  , cols := [{ name := "Name", cells := [] }] }

/-- Another zero-row table, with two headers. -/
def zeroRowDf2 : DataFrame :=
  { nrows := 0
  , indexCols := [{ name := "", cells := [] }]
  , cols := [{ name := "Name", cells := [] }, { name := "Score", cells := [] }] }

/-- A worksheet nothing has been applied to yet. -/
def emptyWorksheet : Worksheet :=
  { widths := ∅, condFormats := ∅, frozen := none }

/-- A formatter state holding a non-tabular value, such as the dict of
frames pd.read_excel returns when sheet_name is None. -/
def invalidDataFs : FormatterState :=
  { data := PyData.other "dict", validated := false }

/- Helper lemmas about the worksheet-width loop. -/

theorem applyWidths_condFormats (cols : List Column) (start : Nat) (ws : Worksheet) :
    (applyWidths cols start ws).condFormats = ws.condFormats := by
  induction cols generalizing start ws with
  | nil => rfl
  | cons c rest ih =>
      simp only [applyWidths]
      exact ih (start + 1) _

theorem applyWidths_frozen (cols : List Column) (start : Nat) (ws : Worksheet) :
    (applyWidths cols start ws).frozen = ws.frozen := by
  induction cols generalizing start ws with
  | nil => rfl
  | cons c rest ih =>
      simp only [applyWidths]
      exact ih (start + 1) _

theorem mem_applyWidths_low (cols : List Column) (start : Nat) (ws : Worksheet)
    (j w : Nat) (hj : j < start) :
    ((j, w) ∈ (applyWidths cols start ws).widths ↔ (j, w) ∈ ws.widths) := by
  induction cols generalizing start ws with
  | nil => simp [applyWidths]
  | cons c rest ih =>
      simp only [applyWidths]
      rw [ih (start + 1) _ (by omega)]
      simp only [Worksheet.setColumn, Finset.mem_insert, Finset.mem_filter,
        Prod.mk.injEq]
      constructor
      · rintro (⟨h1, -⟩ | ⟨hm, -⟩)
        · exact absurd h1 (by omega)
        · exact hm
      · intro hm
        exact Or.inr ⟨hm, by simp; omega⟩

theorem mem_applyWidths_high (cols : List Column) (start : Nat) (ws : Worksheet)
    (j w : Nat) (hj : start + cols.length ≤ j) :
    ((j, w) ∈ (applyWidths cols start ws).widths ↔ (j, w) ∈ ws.widths) := by
  induction cols generalizing start ws with
  | nil => simp [applyWidths]
  | cons c rest ih =>
      have hlen : start + (c :: rest).length = start + 1 + rest.length := by
        simp [List.length_cons]
        omega
      simp only [applyWidths]
      rw [ih (start + 1) _ (by omega)]
      simp only [Worksheet.setColumn, Finset.mem_insert, Finset.mem_filter,
        Prod.mk.injEq]
      constructor
      · rintro (⟨h1, -⟩ | ⟨hm, -⟩)
        · exact absurd h1 (by simp at hj; omega)
        · exact hm
      · intro hm
        exact Or.inr ⟨hm, by simp at hj ⊢; omega⟩

theorem mem_applyWidths_get (cols : List Column) (start : Nat) (ws : Worksheet)
    (k : Nat) (hk : k < cols.length) (w : Nat) :
    ((start + k, w) ∈ (applyWidths cols start ws).widths ↔
      w = columnWidth (cols.get ⟨k, hk⟩)) := by
  induction cols generalizing start ws k with
  | nil => exact absurd hk (by simp)
  | cons c rest ih =>
      cases k with
      | zero =>
          simp only [applyWidths]
          rw [mem_applyWidths_low rest (start + 1) _ (start + 0) w (by omega)]
          simp only [Worksheet.setColumn, Finset.mem_insert, Finset.mem_filter,
            Prod.mk.injEq]
          constructor
          · rintro (⟨-, hw⟩ | ⟨-, hne⟩)
            · exact hw
            · exact absurd rfl hne
          · intro hw
            exact Or.inl ⟨by omega, hw⟩
      | succ k2 =>
          simp only [applyWidths]
          have harith : start + (k2 + 1) = start + 1 + k2 := by omega
          rw [harith, ih (start + 1) _ k2 (by simpa using hk)]
          exact Iff.rfl

theorem applyWidths_twice (cols : List Column) (ws : Worksheet) :
    applyWidths cols 0 (applyWidths cols 0 ws) = applyWidths cols 0 ws := by
  have hg : ∀ (ws0 : Worksheet) (k : Nat) (hk : k < cols.length) (w : Nat),
      ((k, w) ∈ (applyWidths cols 0 ws0).widths ↔
        w = columnWidth (cols.get ⟨k, hk⟩)) := by
    intro ws0 k hk w
    have h := mem_applyWidths_get cols 0 ws0 k hk w
    rw [Nat.zero_add] at h
    exact h
  apply Worksheet.ext
  · apply Finset.ext
    rintro ⟨j, w⟩
    by_cases hj : j < cols.length
    · rw [hg _ j hj w, hg ws j hj w]
    · rw [mem_applyWidths_high cols 0 _ j w (by omega)]
  · rw [applyWidths_condFormats, applyWidths_condFormats]
  · rw [applyWidths_frozen, applyWidths_frozen]

theorem normalizeFrame_nrows (df : DataFrame) :
    (normalizeFrame df).nrows = df.nrows := by
  unfold normalizeFrame
  split <;> rfl

theorem normalizeFrame_idem (df : DataFrame) :
    normalizeFrame (normalizeFrame df) = normalizeFrame df := by
  unfold normalizeFrame
  by_cases h : 1 < df.indexCols.length
  · simp [h, DataFrame.resetIndexFlatten]
  · simp [h]

theorem validateData_of_validated (fs : FormatterState)
    (h : fs.validated = true) : validateData fs = (fs, Except.ok ()) := by
  unfold validateData
  simp [h]

theorem normalizeFrame_nlevels (df : DataFrame) :
    (normalizeFrame df).indexCols.length ≤ 1 := by
  unfold normalizeFrame
  by_cases h : 1 < df.indexCols.length
  · rw [if_pos h]
    exact Nat.le_refl 1
  · rw [if_neg h]
    omega

theorem validateData_idem (fs : FormatterState) :
    validateData (validateData fs).1 = validateData fs := by
  by_cases hv : fs.validated
  · rw [validateData_of_validated fs hv]
    exact validateData_of_validated fs hv
  · cases hd : fs.data with
    | frame df =>
        by_cases hcl : 1 < df.indexCols.length ∧ ¬ df.resetIndexOk
        · have hstep : validateData fs =
              (fs,
                Except.error
                  "Data validation failed: cannot insert index level, already exists") := by
            unfold validateData
            simp [hv, hd, hcl]
          rw [hstep]
          exact hstep
        · have hcl2 : ¬ (1 < (normalizeFrame df).indexCols.length ∧
              ¬ (normalizeFrame df).resetIndexOk) := by
            intro hcon
            have h1 := hcon.1
            have h2 := normalizeFrame_nlevels df
            omega
          by_cases he : (normalizeFrame df).isEmptyDf
          · have hstep : validateData fs =
                ({ data := PyData.frame (normalizeFrame df), validated := false },
                  Except.error "Data validation failed: Cannot format empty DataFrame") := by
              unfold validateData
              simp [hv, hd, hcl, he]
            rw [hstep]
            unfold validateData
            simp [hcl2, normalizeFrame_idem, he]
          · have hstep : validateData fs =
                ({ data := PyData.frame (normalizeFrame df), validated := true },
                  Except.ok ()) := by
              unfold validateData
              simp [hv, hd, hcl, he]
            rw [hstep]
            exact validateData_of_validated _ rfl
    | other t =>
        have hstep : validateData fs =
            (fs, Except.error ("Data validation failed: Unsupported data type: " ++ t)) := by
          unfold validateData
          simp [hv, hd]
        rw [hstep]
        unfold validateData
        simp [hv, hd]

theorem insert_pair_twice {A : Type} [DecidableEq A] (a b : A) (s : Finset A) :
    insert a (insert b (insert a (insert b s))) = insert a (insert b s) := by
  rw [Finset.Insert.comm b a, Finset.insert_idem, Finset.insert_idem]

theorem validateData_fresh_frame (df : DataFrame)
    (hok : ¬ (1 < df.indexCols.length ∧ ¬ df.resetIndexOk)) :
    validateData { data := PyData.frame df, validated := false } =
      (if (normalizeFrame df).isEmptyDf then
        ({ data := PyData.frame (normalizeFrame df), validated := false },
          Except.error "Data validation failed: Cannot format empty DataFrame")
      else
        ({ data := PyData.frame (normalizeFrame df), validated := true },
          Except.ok ())) := by
  unfold validateData
  simp [hok]

theorem validateData_fresh_clash (df : DataFrame)
    (h : 1 < df.indexCols.length) (hbad : ¬ df.resetIndexOk) :
    validateData { data := PyData.frame df, validated := false } =
      ({ data := PyData.frame df, validated := false },
        Except.error
          "Data validation failed: cannot insert index level, already exists") := by
  unfold validateData
  simp [h, hbad]

theorem ops_fail_of_validate_error
    (fs : FormatterState) (ws : Worksheet) (gb : Bool)
    (hcolor bcolor : String) (style : Nat)
    (h : isErr (validateData fs).2 = true) :
    isErr (applySpacing fs ws).2.2 = true ∧
    (applySpacing fs ws).1 = (validateData fs).1 ∧
    (applySpacing fs ws).2.1 = ws ∧
    isErr (applyColumnColors gb hcolor fs ws).2.2 = true ∧
    (applyColumnColors gb hcolor fs ws).1 = (validateData fs).1 ∧
    (applyColumnColors gb hcolor fs ws).2.1 = ws ∧
    isErr (applyBorders style bcolor fs ws).2.2 = true ∧
    (applyBorders style bcolor fs ws).1 = (validateData fs).1 ∧
    (applyBorders style bcolor fs ws).2.1 = ws := by
  cases hsplit : validateData fs with
  | mk fs2 r =>
      cases r with
      | ok u =>
          rw [hsplit] at h
          simp [isErr] at h
      | error e =>
          refine ⟨?_, ?_, ?_, ?_, ?_, ?_, ?_, ?_, ?_⟩ <;>
            simp only [applySpacing, applyColumnColors, applyBorders,
              hsplit, isErr]

/-- Claim C1: for every validated non-empty table, apply_spacing succeeds
and sets each column k's display width to min(max(m + 2, 8), 50), where m
is the maximum of the header text length and the maximum
string-representation length over that column's cells; consequently every
width lies in [8, 50] and is monotonically non-decreasing in m until
clamped. -/
theorem apply_spacing_sets_clamped_widths
    (fs : FormatterState) (ws : Worksheet) (df : DataFrame)
    (h : ValidatedFrame fs df) :
    (applySpacing fs ws).1 = fs ∧
    (applySpacing fs ws).2.2 = Except.ok () ∧
    (∀ (k : Nat) (hk : k < df.cols.length) (w : Nat),
      ((k, w) ∈ (applySpacing fs ws).2.1.widths ↔
        w = widthOfLen (colMaxTextLen (df.cols.get ⟨k, hk⟩)))) ∧
    (∀ c : Column, columnWidth c = min (max (colMaxTextLen c + 2) 8) 50) ∧
    (∀ c : Column, 8 ≤ columnWidth c ∧ columnWidth c ≤ 50) ∧
    (∀ m1 m2 : Nat, m1 ≤ m2 → widthOfLen m1 ≤ widthOfLen m2) := by
  obtain ⟨hdata, hval, hrow, hcol⟩ := h
  have hv : validateData fs = (fs, Except.ok ()) :=
    validateData_of_validated fs hval
  have hs : applySpacing fs ws = (fs, applyWidths df.cols 0 ws, Except.ok ()) := by
    simp only [applySpacing, hv, hdata]
  refine ⟨by rw [hs], by rw [hs], ?_, ?_, ?_, ?_⟩
  · intro k hk w
    rw [hs]
    have h0 := mem_applyWidths_get df.cols 0 ws k hk w
    rw [Nat.zero_add] at h0
    exact h0
  · intro c
    rfl
  · intro c
    unfold columnWidth widthOfLen
    constructor
    · omega
    · omega
  · intro m1 m2 hm
    unfold widthOfLen
    omega

/-- Concrete instance of apply_spacing_sets_clamped_widths: the sample
validated one-row table satisfies the hypothesis and spacing succeeds on
the empty worksheet. -/
theorem apply_spacing_sets_clamped_widths_witness :
    ValidatedFrame sampleValidatedFs sampleDf ∧
    (applySpacing sampleValidatedFs emptyWorksheet).2.2 = Except.ok () :=
  ⟨⟨rfl, rfl, by decide, by decide⟩,
    (apply_spacing_sets_clamped_widths sampleValidatedFs emptyWorksheet sampleDf
      ⟨rfl, rfl, by decide, by decide⟩).2.1⟩

/-- Claim C2 (amended): for every validated table, with R = row count >= 1
and C = column count >= 1, apply_borders succeeds and adds exactly one
border rule; its range covers exactly rows 1..R, columns 0..C-1, so header
row 0 is never covered, and widths and frozen panes are untouched.  (On a
zero-row table validation raises first, so apply_borders errors rather than
no-op succeeding; see apply_borders_zero_rows_raises.) -/
theorem apply_borders_exact_data_range
    (fs : FormatterState) (ws : Worksheet) (df : DataFrame)
    (style : Nat) (color : String) (h : ValidatedFrame fs df) :
    (applyBorders style color fs ws).1 = fs ∧
    (applyBorders style color fs ws).2.2 = Except.ok () ∧
    (applyBorders style color fs ws).2.1.condFormats =
      insert
        { firstRow := 1, firstCol := 0, lastRow := df.nrows
        , lastCol := df.cols.length - 1, fmt := borderFormat style color }
        ws.condFormats ∧
    (∀ r c : Nat,
      CondFmt.covers
        { firstRow := 1, firstCol := 0, lastRow := df.nrows
        , lastCol := df.cols.length - 1, fmt := borderFormat style color } r c ↔
      (1 ≤ r ∧ r ≤ df.nrows ∧ c < df.cols.length)) ∧
    (∀ c : Nat,
      ¬ CondFmt.covers
        { firstRow := 1, firstCol := 0, lastRow := df.nrows
        , lastCol := df.cols.length - 1, fmt := borderFormat style color } 0 c) ∧
    (applyBorders style color fs ws).2.1.widths = ws.widths ∧
    (applyBorders style color fs ws).2.1.frozen = ws.frozen := by
  obtain ⟨hdata, hval, hrow, hcol⟩ := h
  have hv : validateData fs = (fs, Except.ok ()) :=
    validateData_of_validated fs hval
  have hb : applyBorders style color fs ws =
      (fs,
        ws.condFormat
          { firstRow := 1, firstCol := 0, lastRow := df.nrows
          , lastCol := df.cols.length - 1, fmt := borderFormat style color },
        Except.ok ()) := by
    simp only [applyBorders, hv, hdata]
    rw [if_neg (by omega)]
  refine ⟨by rw [hb], by rw [hb], by rw [hb]; rfl, ?_, ?_, by rw [hb]; rfl,
    by rw [hb]; rfl⟩
  · intro r c
    show (1 ≤ r ∧ r ≤ df.nrows ∧ 0 ≤ c ∧ c ≤ df.cols.length - 1) ↔
      (1 ≤ r ∧ r ≤ df.nrows ∧ c < df.cols.length)
    omega
  · intro c
    show ¬ (1 ≤ 0 ∧ 0 ≤ df.nrows ∧ 0 ≤ c ∧ c ≤ df.cols.length - 1)
    omega

/-- Concrete instance of apply_borders_exact_data_range: borders on the
sample validated one-row table succeed on the empty worksheet. -/
theorem apply_borders_exact_data_range_witness :
    ValidatedFrame sampleValidatedFs sampleDf ∧
    (applyBorders 1 "black" sampleValidatedFs emptyWorksheet).2.2 =
      Except.ok () :=
  ⟨⟨rfl, rfl, by decide, by decide⟩,
    (apply_borders_exact_data_range sampleValidatedFs emptyWorksheet sampleDf
      1 "black" ⟨rfl, rfl, by decide, by decide⟩).2.1⟩

/-- On the concrete zero-row table zeroRowDf, apply_borders is not a no-op
that formats nothing and returns: validation rejects the empty frame, so
the call raises an ExcelFormatterError (while indeed touching no cell). -/
theorem apply_borders_zero_rows_raises :
    isErr (applyBorders 1 "black"
      { data := PyData.frame zeroRowDf, validated := false }
      emptyWorksheet).2.2 = true ∧
    (applyBorders 1 "black"
      { data := PyData.frame zeroRowDf, validated := false }
      emptyWorksheet).2.1 = emptyWorksheet := by
  constructor
  · rfl
  · rfl

/-- Claim C3: for every validated table (so C >= 1 columns and R >= 1 data
rows), apply_column_colors with grey_bottom false succeeds and adds exactly
the header rule, whose range covers exactly row 0, columns 0..C-1, carrying
the header color; with grey_bottom true it adds exactly the header rule and
one extra rule covering exactly the last data row (row index R = row count),
columns 0..C-1, carrying a fixed grey background and bold. -/
theorem apply_column_colors_header_and_bottom
    (fs : FormatterState) (ws : Worksheet) (df : DataFrame) (hcolor : String)
    (h : ValidatedFrame fs df) :
    (applyColumnColors false hcolor fs ws).1 = fs ∧
    (applyColumnColors false hcolor fs ws).2.2 = Except.ok () ∧
    (applyColumnColors false hcolor fs ws).2.1.condFormats =
      insert
        { firstRow := 0, firstCol := 0, lastRow := 0
        , lastCol := df.cols.length - 1, fmt := headerFormat hcolor }
        ws.condFormats ∧
    (∀ r c : Nat,
      CondFmt.covers
        { firstRow := 0, firstCol := 0, lastRow := 0
        , lastCol := df.cols.length - 1, fmt := headerFormat hcolor } r c ↔
      (r = 0 ∧ c < df.cols.length)) ∧
    (applyColumnColors true hcolor fs ws).2.2 = Except.ok () ∧
    (applyColumnColors true hcolor fs ws).2.1.condFormats =
      insert
        { firstRow := 0, firstCol := 0, lastRow := 0
        , lastCol := df.cols.length - 1, fmt := headerFormat hcolor }
        (insert
          { firstRow := df.nrows, firstCol := 0, lastRow := df.nrows
          , lastCol := df.cols.length - 1, fmt := greyBottomFormat }
          ws.condFormats) ∧
    (∀ r c : Nat,
      CondFmt.covers
        { firstRow := df.nrows, firstCol := 0, lastRow := df.nrows
        , lastCol := df.cols.length - 1, fmt := greyBottomFormat } r c ↔
      (r = df.nrows ∧ c < df.cols.length)) ∧
    greyBottomFormat =
      { bgColor := some "#d9d9d9", bold := true
      , border := none, borderColor := none } ∧
    headerFormat hcolor =
      { bgColor := some hcolor, bold := false
      , border := none, borderColor := none } := by
  obtain ⟨hdata, hval, hrow, hcol⟩ := h
  have hv : validateData fs = (fs, Except.ok ()) :=
    validateData_of_validated fs hval
  have hfalse : applyColumnColors false hcolor fs ws =
      (fs,
        ws.condFormat
          { firstRow := 0, firstCol := 0, lastRow := 0
          , lastCol := df.cols.length - 1, fmt := headerFormat hcolor },
        Except.ok ()) := by
    simp only [applyColumnColors, hv, hdata]
    simp [hcol]
  have htrue : applyColumnColors true hcolor fs ws =
      (fs,
        Worksheet.condFormat
          (ws.condFormat
            { firstRow := df.nrows, firstCol := 0, lastRow := df.nrows
            , lastCol := df.cols.length - 1, fmt := greyBottomFormat })
          { firstRow := 0, firstCol := 0, lastRow := 0
          , lastCol := df.cols.length - 1, fmt := headerFormat hcolor },
        Except.ok ()) := by
    simp only [applyColumnColors, hv, hdata]
    simp [hrow, hcol]
  refine ⟨by rw [hfalse], by rw [hfalse], by rw [hfalse]; rfl, ?_,
    by rw [htrue], by rw [htrue]; rfl, ?_, rfl, rfl⟩
  · intro r c
    show (0 ≤ r ∧ r ≤ 0 ∧ 0 ≤ c ∧ c ≤ df.cols.length - 1) ↔
      (r = 0 ∧ c < df.cols.length)
    omega
  · intro r c
    show (df.nrows ≤ r ∧ r ≤ df.nrows ∧ 0 ≤ c ∧ c ≤ df.cols.length - 1) ↔
      (r = df.nrows ∧ c < df.cols.length)
    omega

/-- Concrete instance of apply_column_colors_header_and_bottom at the
sample validated table: both color modes succeed on the empty worksheet. -/
theorem apply_column_colors_header_and_bottom_witness :
    ValidatedFrame sampleValidatedFs sampleDf ∧
    (applyColumnColors false "#ffb3b3" sampleValidatedFs
      emptyWorksheet).2.2 = Except.ok () ∧
    (applyColumnColors true "#ffb3b3" sampleValidatedFs
      emptyWorksheet).2.2 = Except.ok () :=
  ⟨⟨rfl, rfl, by decide, by decide⟩,
    (apply_column_colors_header_and_bottom sampleValidatedFs emptyWorksheet
      sampleDf "#ffb3b3" ⟨rfl, rfl, by decide, by decide⟩).2.1,
    (apply_column_colors_header_and_bottom sampleValidatedFs emptyWorksheet
      sampleDf "#ffb3b3" ⟨rfl, rfl, by decide, by decide⟩).2.2.2.2.1⟩

/-- Claim C4 (amended): for every table carrying a k-level row index
(k >= 2), R rows and C ordinary columns, provided reset_index can insert
the level names (pairwise distinct and disjoint from the existing column
names), _validate_data flattens the index into ordinary columns: the
stored table afterwards is the frame whose rows still number R and whose
columns are the k index levels followed by the C original columns, hence
exactly C + k columns; and whenever R >= 1 the validation also succeeds
and marks the state validated.  When a level name clashes, reset_index
raises ValueError instead and validation fails with the data left
unflattened; see validate_multiindex_name_clash_raises. -/
theorem validate_flattens_multilevel_index
    (df : DataFrame) (h : 1 < df.indexCols.length) (hok : df.resetIndexOk) :
    (validateData { data := PyData.frame df, validated := false }).1.data =
      PyData.frame
        { nrows := df.nrows
        , indexCols := [rangeIndexColumn df.nrows]
        , cols := df.indexCols ++ df.cols } ∧
    (df.indexCols ++ df.cols).length = df.cols.length + df.indexCols.length ∧
    (0 < df.nrows →
      validateData { data := PyData.frame df, validated := false } =
        ({ data := PyData.frame
              { nrows := df.nrows
              , indexCols := [rangeIndexColumn df.nrows]
              , cols := df.indexCols ++ df.cols }
          , validated := true }, Except.ok ())) := by
  have hn : normalizeFrame df =
      { nrows := df.nrows
      , indexCols := [rangeIndexColumn df.nrows]
      , cols := df.indexCols ++ df.cols } := by
    unfold normalizeFrame DataFrame.resetIndexFlatten
    rw [if_pos h]
  have hok2 : ¬ (1 < df.indexCols.length ∧ ¬ df.resetIndexOk) := by
    intro hcon
    exact hcon.2 hok
  refine ⟨?_, ?_, ?_⟩
  · rw [validateData_fresh_frame df hok2]
    by_cases he : (normalizeFrame df).isEmptyDf
    · rw [if_pos he, hn]
    · rw [if_neg he, hn]
  · rw [List.length_append]
    omega
  · intro hr
    have hne : ¬ (normalizeFrame df).isEmptyDf = true := by
      rw [hn]
      unfold DataFrame.isEmptyDf
      simp only [List.length_append, Bool.or_eq_true, beq_iff_eq]
      omega
    rw [validateData_fresh_frame df hok2, if_neg hne, hn]

/-- Concrete instance of validate_flattens_multilevel_index at the sample
two-level-index table: it has 2 index levels with clash-free names and 2
rows, and validation stores the flat frame. -/
theorem validate_flattens_multilevel_index_witness :
    (1 < sampleMultiDf.indexCols.length ∧ sampleMultiDf.resetIndexOk) ∧
    (validateData { data := PyData.frame sampleMultiDf, validated := false }).1.data =
      PyData.frame
        { nrows := sampleMultiDf.nrows
        , indexCols := [rangeIndexColumn sampleMultiDf.nrows]
        , cols := sampleMultiDf.indexCols ++ sampleMultiDf.cols } :=
  ⟨⟨by decide, by decide⟩,
    (validate_flattens_multilevel_index sampleMultiDf (by decide) (by decide)).1⟩

/-- At the concrete table clashDf, whose second index level carries the
same name as an ordinary column, validation does not flatten and does not
succeed: reset_index raises ValueError, _validate_data wraps it, and the
stored data is left exactly as it was (1 ordinary column, not C + k). -/
theorem validate_multiindex_name_clash_raises :
    1 < clashDf.indexCols.length ∧
    isErr (validateData
      { data := PyData.frame clashDf, validated := false }).2 = true ∧
    (validateData { data := PyData.frame clashDf, validated := false }).1.data =
      PyData.frame clashDf := by
  refine ⟨by decide, ?_, ?_⟩
  · rfl
  · rfl

/-- Claim C5 (amended): a zero-row table (headers only) makes validation
raise, so apply_spacing, apply_borders and apply_column_colors (with either
grey_bottom setting and any colors) all raise ExcelFormatterError and leave
the worksheet untouched; only freeze_panes, which never validates, still
succeeds. -/
theorem zero_row_table_ops_raise
    (df : DataFrame) (ws : Worksheet) (hcolor bcolor : String) (gb : Bool)
    (style row col : Nat) (h0 : df.nrows = 0) :
    isErr (applySpacing
      { data := PyData.frame df, validated := false } ws).2.2 = true ∧
    (applySpacing { data := PyData.frame df, validated := false } ws).2.1 = ws ∧
    isErr (applyBorders style bcolor
      { data := PyData.frame df, validated := false } ws).2.2 = true ∧
    (applyBorders style bcolor
      { data := PyData.frame df, validated := false } ws).2.1 = ws ∧
    isErr (applyColumnColors gb hcolor
      { data := PyData.frame df, validated := false } ws).2.2 = true ∧
    (applyColumnColors gb hcolor
      { data := PyData.frame df, validated := false } ws).2.1 = ws ∧
    (freezePanes row col
      { data := PyData.frame df, validated := false } ws).2.2 = Except.ok () := by
  have he : (normalizeFrame df).isEmptyDf = true := by
    unfold DataFrame.isEmptyDf
    rw [normalizeFrame_nrows, h0]
    simp
  have herr : isErr (validateData
      { data := PyData.frame df, validated := false }).2 = true := by
    by_cases hcl : 1 < df.indexCols.length ∧ ¬ df.resetIndexOk
    · rw [validateData_fresh_clash df hcl.1 hcl.2]
      rfl
    · rw [validateData_fresh_frame df hcl, if_pos he]
      rfl
  obtain ⟨a1, a2, a3, b1, b2, b3, c1, c2, c3⟩ :=
    ops_fail_of_validate_error { data := PyData.frame df, validated := false }
      ws gb hcolor bcolor style herr
  exact ⟨a1, a3, c1, c3, b1, b3, rfl⟩

/-- Concrete instance of zero_row_table_ops_raise at the one-header
zero-row table: each validating operation errors and freeze_panes does
not. -/
theorem zero_row_table_ops_raise_witness :
    zeroRowDf.nrows = 0 ∧
    isErr (applySpacing
      { data := PyData.frame zeroRowDf, validated := false }
      emptyWorksheet).2.2 = true :=
  ⟨rfl,
    (zero_row_table_ops_raise zeroRowDf emptyWorksheet "#ffb3b3" "black"
      false 1 1 0 rfl).1⟩

/-- At the concrete headers-only table zeroRowDf2, apply_spacing does not
succeed (and the grey-bottom variant of apply_column_colors does not no-op
successfully either): validation rejects the empty frame and both raise. -/
theorem zero_row_apply_spacing_raises :
    isErr (applySpacing
      { data := PyData.frame zeroRowDf2, validated := false }
      emptyWorksheet).2.2 = true ∧
    isErr (applyColumnColors true "#ffb3b3"
      { data := PyData.frame zeroRowDf2, validated := false }
      emptyWorksheet).2.2 = true := by
  constructor
  · rfl
  · rfl

/-- Claim C6 (amended): apply_spacing, apply_column_colors and apply_borders
each re-run validation before acting, so on a table that validation rejects
all three fail, leave the worksheet untouched, and agree on the resulting
formatter state (the state validation itself produces); freeze_panes
performs no validation and succeeds, leaving the formatter state exactly as
it was, even on an invalid table. -/
theorem three_ops_revalidate_freeze_does_not
    (fs : FormatterState) (ws : Worksheet) (gb : Bool)
    (hcolor bcolor : String) (style row col : Nat)
    (h : isErr (validateData fs).2 = true) :
    isErr (applySpacing fs ws).2.2 = true ∧
    (applySpacing fs ws).1 = (validateData fs).1 ∧
    (applySpacing fs ws).2.1 = ws ∧
    isErr (applyColumnColors gb hcolor fs ws).2.2 = true ∧
    (applyColumnColors gb hcolor fs ws).1 = (validateData fs).1 ∧
    (applyColumnColors gb hcolor fs ws).2.1 = ws ∧
    isErr (applyBorders style bcolor fs ws).2.2 = true ∧
    (applyBorders style bcolor fs ws).1 = (validateData fs).1 ∧
    (applyBorders style bcolor fs ws).2.1 = ws ∧
    freezePanes row col fs ws =
      (fs, { ws with frozen := some (row, col) }, Except.ok ()) := by
  cases hsplit : validateData fs with
  | mk fs2 r =>
      cases r with
      | ok u =>
          rw [hsplit] at h
          simp [isErr] at h
      | error e =>
          refine ⟨?_, ?_, ?_, ?_, ?_, ?_, ?_, ?_, ?_, rfl⟩ <;>
            simp only [applySpacing, applyColumnColors, applyBorders,
              hsplit, isErr]

/-- Concrete instance of three_ops_revalidate_freeze_does_not at a state
holding an unsupported value: validation errors and so does
apply_spacing. -/
theorem three_ops_revalidate_freeze_does_not_witness :
    isErr (validateData invalidDataFs).2 = true ∧
    isErr (applySpacing invalidDataFs emptyWorksheet).2.2 = true :=
  ⟨rfl,
    (three_ops_revalidate_freeze_does_not invalidDataFs emptyWorksheet
      false "#ffb3b3" "black" 1 1 0 rfl).1⟩

/-- freeze_panes succeeds on a table validation rejects and does not touch
the formatter state at all, so not every operation re-runs validation or
fails on an invalid table. -/
theorem freeze_panes_succeeds_on_invalid_table :
    isErr (validateData invalidDataFs).2 = true ∧
    (freezePanes 1 0 invalidDataFs emptyWorksheet).2.2 = Except.ok () ∧
    (freezePanes 1 0 invalidDataFs emptyWorksheet).1 = invalidDataFs := by
  refine ⟨rfl, rfl, rfl⟩

theorem spacingStep_idem (p : FormatterState × Worksheet) :
    spacingStep (spacingStep p) = spacingStep p := by
  cases hsplit : validateData p.1 with
  | mk fs2 r =>
      have hidem : validateData fs2 = (fs2, r) := by
        have h2 := validateData_idem p.1
        rw [hsplit] at h2
        exact h2
      cases r with
      | error e =>
          have h1 : spacingStep p = (fs2, p.2) := by
            simp only [spacingStep, applySpacing, hsplit]
          rw [h1]
          simp only [spacingStep, applySpacing, hidem]
      | ok u =>
          cases hd : fs2.data with
          | frame df =>
              have h1 : spacingStep p = (fs2, applyWidths df.cols 0 p.2) := by
                simp only [spacingStep, applySpacing, hsplit, hd]
              rw [h1]
              simp only [spacingStep, applySpacing, hidem, hd]
              rw [applyWidths_twice]
          | other t =>
              have h1 : spacingStep p = (fs2, p.2) := by
                simp only [spacingStep, applySpacing, hsplit, hd]
              rw [h1]
              simp only [spacingStep, applySpacing, hidem, hd]

theorem colorsStep_idem (gb : Bool) (hcolor : String)
    (p : FormatterState × Worksheet) :
    colorsStep gb hcolor (colorsStep gb hcolor p) = colorsStep gb hcolor p := by
  cases hsplit : validateData p.1 with
  | mk fs2 r =>
      have hidem : validateData fs2 = (fs2, r) := by
        have h2 := validateData_idem p.1
        rw [hsplit] at h2
        exact h2
      cases r with
      | error e =>
          have h1 : colorsStep gb hcolor p = (fs2, p.2) := by
            simp only [colorsStep, applyColumnColors, hsplit]
          rw [h1]
          simp only [colorsStep, applyColumnColors, hidem]
      | ok u =>
          cases hd : fs2.data with
          | other t =>
              have h1 : colorsStep gb hcolor p = (fs2, p.2) := by
                simp only [colorsStep, applyColumnColors, hsplit, hd]
              rw [h1]
              simp only [colorsStep, applyColumnColors, hidem, hd]
          | frame df =>
              by_cases hgb : gb = true ∧ 0 < df.nrows
              · by_cases hcc : 0 < df.cols.length
                · have h1 : colorsStep gb hcolor p =
                      (fs2,
                        Worksheet.condFormat
                          (p.2.condFormat
                            { firstRow := df.nrows, firstCol := 0
                            , lastRow := df.nrows
                            , lastCol := df.cols.length - 1
                            , fmt := greyBottomFormat })
                          { firstRow := 0, firstCol := 0, lastRow := 0
                          , lastCol := df.cols.length - 1
                          , fmt := headerFormat hcolor }) := by
                    simp only [colorsStep, applyColumnColors, hsplit, hd,
                      if_pos hgb, if_pos hcc]
                  rw [h1]
                  simp only [colorsStep, applyColumnColors, hidem, hd,
                    if_pos hgb, if_pos hcc]
                  congr 1
                  apply Worksheet.ext
                  · rfl
                  · exact insert_pair_twice _ _ _
                  · rfl
                · have h1 : colorsStep gb hcolor p =
                      (fs2,
                        p.2.condFormat
                          { firstRow := df.nrows, firstCol := 0
                          , lastRow := df.nrows
                          , lastCol := df.cols.length - 1
                          , fmt := greyBottomFormat }) := by
                    simp only [colorsStep, applyColumnColors, hsplit, hd,
                      if_pos hgb, if_neg hcc]
                  rw [h1]
                  simp only [colorsStep, applyColumnColors, hidem, hd,
                    if_pos hgb, if_neg hcc]
                  congr 1
                  apply Worksheet.ext
                  · rfl
                  · exact Finset.insert_idem _ _
                  · rfl
              · by_cases hcc : 0 < df.cols.length
                · have h1 : colorsStep gb hcolor p =
                      (fs2,
                        p.2.condFormat
                          { firstRow := 0, firstCol := 0, lastRow := 0
                          , lastCol := df.cols.length - 1
                          , fmt := headerFormat hcolor }) := by
                    simp only [colorsStep, applyColumnColors, hsplit, hd,
                      if_neg hgb, if_pos hcc]
                  rw [h1]
                  simp only [colorsStep, applyColumnColors, hidem, hd,
                    if_neg hgb, if_pos hcc]
                  congr 1
                  apply Worksheet.ext
                  · rfl
                  · exact Finset.insert_idem _ _
                  · rfl
                · have h1 : colorsStep gb hcolor p = (fs2, p.2) := by
                    simp only [colorsStep, applyColumnColors, hsplit, hd,
                      if_neg hgb, if_neg hcc]
                  rw [h1]
                  simp only [colorsStep, applyColumnColors, hidem, hd,
                    if_neg hgb, if_neg hcc]

theorem bordersStep_idem (style : Nat) (bcolor : String)
    (p : FormatterState × Worksheet) :
    bordersStep style bcolor (bordersStep style bcolor p) =
      bordersStep style bcolor p := by
  cases hsplit : validateData p.1 with
  | mk fs2 r =>
      have hidem : validateData fs2 = (fs2, r) := by
        have h2 := validateData_idem p.1
        rw [hsplit] at h2
        exact h2
      cases r with
      | error e =>
          have h1 : bordersStep style bcolor p = (fs2, p.2) := by
            simp only [bordersStep, applyBorders, hsplit]
          rw [h1]
          simp only [bordersStep, applyBorders, hidem]
      | ok u =>
          cases hd : fs2.data with
          | other t =>
              have h1 : bordersStep style bcolor p = (fs2, p.2) := by
                simp only [bordersStep, applyBorders, hsplit, hd]
              rw [h1]
              simp only [bordersStep, applyBorders, hidem, hd]
          | frame df =>
              by_cases hz : df.nrows = 0
              · have h1 : bordersStep style bcolor p = (fs2, p.2) := by
                  simp only [bordersStep, applyBorders, hsplit, hd, if_pos hz]
                rw [h1]
                simp only [bordersStep, applyBorders, hidem, hd, if_pos hz]
              · have h1 : bordersStep style bcolor p =
                    (fs2,
                      p.2.condFormat
                        { firstRow := 1, firstCol := 0, lastRow := df.nrows
                        , lastCol := df.cols.length - 1
                        , fmt := borderFormat style bcolor }) := by
                  simp only [bordersStep, applyBorders, hsplit, hd, if_neg hz]
                rw [h1]
                simp only [bordersStep, applyBorders, hidem, hd, if_neg hz]
                congr 1
                apply Worksheet.ext
                · rfl
                · exact Finset.insert_idem _ _
                · rfl

theorem freezeStep_idem (row col : Nat) (p : FormatterState × Worksheet) :
    freezeStep row col (freezeStep row col p) = freezeStep row col p := by
  rfl

/-- Claim C7: each single formatting operation is idempotent on the
formatter/worksheet state: invoking apply_spacing, apply_column_colors,
apply_borders or freeze_panes twice in succession leaves the same final
state as invoking it once (in particular for every validated table). -/
theorem formatting_ops_idempotent
    (p : FormatterState × Worksheet) (gb : Bool) (hcolor bcolor : String)
    (style row col : Nat) :
    spacingStep (spacingStep p) = spacingStep p ∧
    colorsStep gb hcolor (colorsStep gb hcolor p) = colorsStep gb hcolor p ∧
    bordersStep style bcolor (bordersStep style bcolor p) =
      bordersStep style bcolor p ∧
    freezeStep row col (freezeStep row col p) = freezeStep row col p :=
  ⟨spacingStep_idem p, colorsStep_idem gb hcolor p,
    bordersStep_idem style bcolor p, freezeStep_idem row col p⟩

/-- Claim C8: once _validate_data has succeeded, every later call is a
no-op: it returns immediately with success and leaves the stored table
(its rows, columns and values) and the whole formatter state unchanged. -/
theorem validate_noop_after_success (fs fs2 : FormatterState)
    (h : validateData fs = (fs2, Except.ok ())) :
    validateData fs2 = (fs2, Except.ok ()) := by
  have h2 := validateData_idem fs
  rw [h] at h2
  exact h2

/-- Concrete instance of validate_noop_after_success: validating the fresh
sample state succeeds and yields the validated sample state, on which a
second validation is a successful no-op. -/
theorem validate_noop_after_success_witness :
    validateData sampleFreshFs = (sampleValidatedFs, Except.ok ()) ∧
    validateData sampleValidatedFs = (sampleValidatedFs, Except.ok ()) :=
  ⟨by rfl, validate_noop_after_success sampleFreshFs sampleValidatedFs (by rfl)⟩

/-- Claim C9: the process exits with status 0 on success, with status 1 on
any input-validation (bad file type, missing file), data/formatting
(ExcelFormatterError) or unexpected error — whether or not verbose
re-raises it — and with status 130 when interrupted by the user. -/
theorem main_exit_codes :
    (∀ v : Bool, mainExitCode RunOutcome.success v = 0) ∧
    (∀ (m : String) (v : Bool),
      mainExitCode (RunOutcome.invalidFileType m) v = 1) ∧
    (∀ (m : String) (v : Bool),
      mainExitCode (RunOutcome.fileNotFound m) v = 1) ∧
    (∀ (m : String) (v : Bool),
      mainExitCode (RunOutcome.excelFormatterError m) v = 1) ∧
    (∀ (m : String) (v : Bool),
      mainExitCode (RunOutcome.unexpected m) v = 1) ∧
    (∀ v : Bool, mainExitCode RunOutcome.keyboardInterrupt v = 130) :=
  ⟨fun _ => rfl, fun _ _ => rfl, fun _ _ => rfl, fun _ _ => rfl,
    fun _ _ => rfl, fun _ => rfl⟩

/-- Claim C10: whatever the command-line flags, the worksheet written to
the output workbook is named Sheet1; the --sheet argument is used only to
select which sheet of the input file is read. -/
theorem output_sheet_always_sheet1 (a : CliArgs) :
    (mainPlan a).writeSheet = "Sheet1" ∧ (mainPlan a).readSheet = a.sheet :=
  ⟨rfl, rfl⟩
